import Mathlib

/-!
Verification of the sammoo multi-objective optimization core.

This file shallowly embeds the parts of the repository that the claims
are about:

* `ConfigSelection` (src/sammoo/config_selection.py): the simulation
  oracle adapter around the PySAM plant/financial simulator — output
  name translation, variable-to-group routing, output collection, the
  `sim_func` failure policy, and `set_debug_outputs`.
* `ParMOOSim` (src/Classes/parmoo_simulation.py): the optimization
  engine and convergence/mode controller — construction, the
  sequential `optimize_step`, the batch `solve_all`, acquisitions,
  and `reset`.

The external collaborators (the PySAM simulator modules and the parmoo
MOOP library) are black boxes: their behavior enters the model as
explicit parameters (the result of executing the simulator modules, the
points parmoo appends to the archive, the mean objective scalar parmoo
reports), exactly at the places the Python code calls into them.
Python floats are modelled as rationals (every concrete value appearing
in the claims is exactly representable) with a separate `nan` sentinel
constructor, and a raised Python exception is an `Except.error`.
-/

namespace Sammoo

/-- A value held in a PySAM module's `Outputs` namespace: a scalar, a
time series / vector, or the NaN sentinel. -/
inductive SimVal where
  | num (q : ℚ)
  | arr (qs : List ℚ)
  | nan
  deriving DecidableEq, Repr

/-- A raised Python exception, as seen by a `try/except` handler. -/
inductive PyErr where
  | typeError (msg : String)
  | other (msg : String)
  deriving DecidableEq, Repr

/-- The name-translation table `ConfigSelection.output_name_map`
(src/sammoo/config_selection.py lines 49-61): user-facing objective
name (optionally prefixed with a minus sign to mark a maximize
direction) to simulator-internal output field name. -/
def output_name_map : List (String × String) :=
  [("LCOE", "lcoe_real"),
   ("-NPV", "npv"),
   ("Payback", "payback"),
   ("-Capacity Factor", "capacity_factor"),
   ("-Savings", "savings_year1"),
   ("CF", "capacity_factor"),
   ("utility_bill_wo_sys_year1", "utility_bill_wo_sys_year1"),
   ("utility_bill_w_sys_year1", "utility_bill_w_sys_year1"),
   ("annual_energy", "annual_energy"),
   ("-LCS", "cf_discounted_savings")]

/-- `self.output_name_map.get(key, key)`: translate a user-facing name,
falling back to the name itself when it has no entry. -/
def outputNameGet (key : String) : String :=
  match output_name_map.find? (fun p => p.1 == key) with
  | some p => p.2
  | none => key

/-- One PySAM module's read-only `Outputs` namespace, as an association
list from internal field name to value; `hasattr` is key presence. -/
abbrev SimModule : Type := List (String × SimVal)

/-- `getattr(module.Outputs, internal_key)` guarded by `hasattr`. -/
def moduleGet (m : SimModule) (k : String) : Option SimVal :=
  (List.find? (fun p => p.1 == k) m).map Prod.snd

/-- One iteration of the inner module scan of
`ConfigSelection._collect_outputs` (lines 195-210): if the module's
`Outputs` has the translated field, read it; for the `"-LCS"` special
case a vector value contributes its last element (`value[-1]`; on an
empty vector the subscript raises IndexError, which the inner
`except` catches, so nothing is contributed and the scan goes on). -/
def extractOutput (key internal : String) (m : SimModule) : Option SimVal :=
  match moduleGet m internal with
  | none => none
  | some v =>
    if key == "-LCS" then
      match v with
      | SimVal.arr qs =>
        match qs.getLast? with
        | some q => some (SimVal.num q)
        | none => none
      | _ => some v
    else some v

/-- The whole module scan for one selected output: the first module
that has the field and from which extraction succeeds contributes the
value (the Python loop `break`s there); if none does, a warning is
printed and nothing is contributed. -/
def collectOne (modules : List SimModule) (key : String) : Option SimVal :=
  (modules.filterMap (extractOutput key (outputNameGet key))).head?

/-- `ConfigSelection._collect_outputs` (lines 190-213): one entry per
selected output that was found; a selected output found in no module is
skipped (only a warning is printed), so it contributes no entry. -/
def collect_outputs (modules : List SimModule) (selected : List String) : List SimVal :=
  selected.filterMap (collectOne modules)

/-- The three PySAM configuration groups that design variables are
routed to (src/sammoo/config_selection.py lines 71-73). -/
inductive SimGroup where
  | solarField
  | tes
  | controller
  deriving DecidableEq, Repr

/-- The routing table `ConfigSelection.variable_to_group`
(lines 75-82). -/
def variable_to_group : List (String × SimGroup) :=
  [("specified_solar_multiple", SimGroup.controller),
   ("I_bn_des", SimGroup.solarField),
   ("T_loop_out", SimGroup.solarField),
   ("tshours", SimGroup.tes),
   ("h_tank_in", SimGroup.tes),
   ("Row_Distance", SimGroup.solarField)]

/-- The mutable configuration state of the wrapped simulator: the
attribute assignments made on each group object.  A later `setattr` of
the same attribute shadows an earlier one (first match on lookup). -/
structure SimState where
  solarField : List (String × ℚ)
  tes : List (String × ℚ)
  controller : List (String × ℚ)
  deriving DecidableEq, Repr

/-- `setattr(group_object, var_name, x[var_name])`. -/
def setGroupAttr (st : SimState) (g : SimGroup) (name : String) (v : ℚ) : SimState :=
  match g with
  | SimGroup.solarField => { st with solarField := (name, v) :: st.solarField }
  | SimGroup.tes => { st with tes := (name, v) :: st.tes }
  | SimGroup.controller => { st with controller := (name, v) :: st.controller }

/-- The routing loop at the top of `ConfigSelection.sim_func`
(lines 237-242): each variable of the design point with an entry in
`variable_to_group` is `setattr` onto its group object; a variable with
no entry only triggers a printed warning (collected here as the second
component) and is skipped. -/
def routeVariables (st : SimState) : List (String × ℚ) → SimState × List String
  | [] => (st, [])
  | (name, v) :: rest =>
    match variable_to_group.find? (fun p => p.1 == name) with
    | some g => routeVariables (setGroupAttr st g.2 name v) rest
    | none =>
      let r := routeVariables st rest
      (r.1, name :: r.2)

/-- The state of a `ConfigSelection` instance that `sim_func` reads:
the current list of selected outputs and the simulator configuration
state. -/
structure ConfigSelection where
  selected_outputs : List String
  state : SimState
  deriving DecidableEq, Repr

/-- `ConfigSelection.sim_func` (lines 235-251).  `execute` abstracts
the external call `for m in self.modules: m.execute(1)`: from the
routed configuration state it either raises or leaves every module's
`Outputs` populated.  If anything inside the `try` block raises, the
`except` branch returns `[np.nan] * len(self.selected_outputs)`. -/
def sim_func (cfg : ConfigSelection)
    (execute : SimState → Except PyErr (List SimModule))
    (x : List (String × ℚ)) : List SimVal :=
  match execute (routeVariables cfg.state x).1 with
  | Except.error _ => List.replicate cfg.selected_outputs.length SimVal.nan
  | Except.ok modules => collect_outputs modules cfg.selected_outputs

/-- An admissible value of the CPython expression `list(s)` for a set
`s` built from the elements of `src`: some duplicate-free enumeration
of exactly those elements.  CPython set iteration order depends on the
per-process string hash seed, so no particular order is guaranteed. -/
def IsPySetList (src r : List String) : Prop :=
  r.Nodup ∧ ∀ a, a ∈ r ↔ a ∈ src

/-- `ConfigSelection.set_debug_outputs` (lines 215-230) replaces
`selected_outputs` by `list(set(self.selected_outputs + additional_outputs))`;
`r` is an admissible result of that expression. -/
def SetDebugOutputsResult (selected additional r : List String) : Prop :=
  IsPySetList (selected ++ additional) r

/-! ## ParMOOSim (src/Classes/parmoo_simulation.py) -/

/-- One registered design variable, as passed to `MOOP.addDesign`:
`{'name': key, 'des_type': value[1], 'lb': value[0][0], 'ub': value[0][1]}`. -/
structure DesignSpec where
  lb : ℚ
  ub : ℚ
  des_type : String
  deriving DecidableEq, Repr

/-- The design-variable dictionary handed to the constructor: each entry
is `(name, ((lb, ub), des_type))`. -/
abbrev DesVarDict : Type := List (String × ((ℚ × ℚ) × String))

/-- The registrations the repository makes on a parmoo `MOOP` instance,
together with the library-owned sample archive it accumulates.  The
surrogate/acquisition internals of parmoo are not repository code; only
what the repository registers and observes is recorded. -/
structure MOOPModel where
  np_random_gen : ℕ
  designs : List (String × DesignSpec)
  simName : String
  simM : ℕ
  simSearchBudget : ℕ
  simFuncToken : ℕ
  objectives : List String
  acquisitions : ℕ
  archive : List (List ℚ)
  deriving DecidableEq, Repr

/-- The `MOOP` setup performed identically by `ParMOOSim.__init__`
(lines 32-63) and `ParMOOSim.reset` (lines 235-257): a fresh `MOOP`
seeded with `np_random_gen = 0`, the design variables from the stored
dictionary, the single simulation `"SAMOptim"` with output arity the
number of objective names and the stored search budget and simulation
function, and one objective per objective name (in list order, each an
indexed read into the simulation output).  `tok` stands for the
identity of the stored `sim_func` callable. -/
def buildMoop (d : DesVarDict) (objNames : List String) (budget : ℕ) (tok : ℕ) : MOOPModel :=
  { np_random_gen := 0,
    designs := d.map (fun kv => (kv.1, ⟨kv.2.1.1, kv.2.1.2, kv.2.2⟩)),
    simName := "SAMOptim",
    simM := objNames.length,
    simSearchBudget := budget,
    simFuncToken := tok,
    objectives := objNames,
    acquisitions := 0,
    archive := [] }

/-- Each objective registered by `ParMOOSim._add_objectives`
(lines 80-88) is `obj_func(x, s) = s["SAMOptim"][index]`: a plain
positional read of the oracle's output vector, with no sign change. -/
def obj_func (index : ℕ) (s : List ℚ) : ℚ :=
  s.getD index 0

/-- The state of a `ParMOOSim` instance. -/
structure ParMOOSim where
  my_moop : MOOPModel
  desVarDict : DesVarDict
  objective_names : List String
  simFuncToken : ℕ
  search_budget : ℕ
  num_steps : ℕ
  switch_after : ℕ
  batch_size : ℕ
  switched_to_batch : Bool
  auto_switch : Bool
  prev_objectives : List ℚ
  epsilon : ℚ
  deriving DecidableEq, Repr

/-- `ParMOOSim.initial_acquisitions(n)` (lines 93-96): add `n`
acquisitions to the wrapped `MOOP`. -/
def initial_acquisitions (s : ParMOOSim) (n : ℕ) : ParMOOSim :=
  { s with my_moop := { s.my_moop with acquisitions := s.my_moop.acquisitions + n } }

/-- `ParMOOSim.add_acquisition` (lines 98-103). -/
def add_acquisition (s : ParMOOSim) : ParMOOSim :=
  { s with my_moop := { s.my_moop with acquisitions := s.my_moop.acquisitions + 1 } }

/-- `ParMOOSim.__init__` (lines 9-78): store the configuration, build
the `MOOP` (designs, simulation, objectives), zero the step counter and
convergence history, clear the batch latch, and add 3 initial
acquisitions.  `selectedOutputs` is `config.selected_outputs` and `tok`
the identity of `config.sim_func`. -/
def ParMOOSim.init (selectedOutputs : List String) (tok : ℕ) (d : DesVarDict)
    (search_budget switch_after batch_size : ℕ) (auto_switch : Bool)
    (epsilon : ℚ) : ParMOOSim :=
  initial_acquisitions
    { my_moop := buildMoop d selectedOutputs search_budget tok,
      desVarDict := d,
      objective_names := selectedOutputs,
      simFuncToken := tok,
      search_budget := search_budget,
      num_steps := 0,
      switch_after := switch_after,
      batch_size := batch_size,
      switched_to_batch := false,
      auto_switch := auto_switch,
      prev_objectives := [],
      epsilon := epsilon } 3

/-- The two most recent entries of the history, as read by
`self.prev_objectives[-1]` and `self.prev_objectives[-2]` (only
evaluated under the guard `len(self.prev_objectives) >= 2`). -/
def lastTwoDelta (l : List ℚ) : ℚ :=
  |l.getD (l.length - 1) 0 - l.getD (l.length - 2) 0|

/-- `ParMOOSim.optimize_step` (lines 105-135).  If the batch latch is
set the call is a rejected no-op (a warning is printed, nothing
changes).  Otherwise the step counter is incremented, `my_moop.optimize()`
runs (the library appends the externally determined evaluations
`newPts` to its archive), the mean objective scalar `meanObj` observed
from `getPF` is appended to the history, and if the history has at
least two entries, auto-switch is on and the delta of the last two
entries is strictly below epsilon, the latch is set, `batch_size`
acquisitions are added, and the code calls
`self.solve_all(plot_output=plot_output)` — but `solve_all` declares a
required positional parameter `sim_max` (line 137) that this call does
not supply, so the call raises a `TypeError` before the batch solve
body can run; the exception propagates out of `optimize_step`. -/
def optimize_step (s : ParMOOSim) (newPts : List (List ℚ)) (meanObj : ℚ) :
    ParMOOSim × Except PyErr Unit :=
  if s.switched_to_batch then
    (s, Except.ok ())
  else
    let s1 : ParMOOSim :=
      { s with num_steps := s.num_steps + 1,
               my_moop := { s.my_moop with archive := s.my_moop.archive ++ newPts },
               prev_objectives := s.prev_objectives ++ [meanObj] }
    if 2 ≤ s1.prev_objectives.length then
      if s1.auto_switch && !s1.switched_to_batch &&
          decide (lastTwoDelta s1.prev_objectives < s1.epsilon) then
        let s2 : ParMOOSim := { s1 with switched_to_batch := true }
        let s3 : ParMOOSim :=
          { s2 with my_moop :=
              { s2.my_moop with acquisitions := s2.my_moop.acquisitions + s2.batch_size } }
        (s3, Except.error (PyErr.typeError
          "solve_all missing 1 required positional argument: sim_max"))
      else
        (s1, Except.ok ())
    else
      (s1, Except.ok ())

/-- `ParMOOSim.solve_all(sim_max)` (lines 137-146) when called with its
required argument: `my_moop.solve(sim_max)` runs, appending the
externally determined batch evaluations to the library archive. -/
def solve_all (s : ParMOOSim) (simMax : ℕ) (newPts : List (List ℚ)) : ParMOOSim :=
  let _ := simMax
  { s with my_moop := { s.my_moop with archive := s.my_moop.archive ++ newPts } }

/-- `ParMOOSim.reset` (lines 227-267): recreate the `MOOP` with the
same seed and re-register the stored design variables, simulation and
objectives; zero the step counter, empty the convergence history, clear
the batch latch, and re-add the 3 initial acquisitions.  All other
configuration fields are left untouched. -/
def reset (s : ParMOOSim) : ParMOOSim :=
  initial_acquisitions
    { s with my_moop := buildMoop s.desVarDict s.objective_names s.search_budget s.simFuncToken,
             num_steps := 0,
             prev_objectives := [],
             switched_to_batch := false } 3

/-- The state-mutating operations available on a `ParMOOSim` other than
`reset`, with their external inputs.  The reading operations
(`get_results`, `export_results`, `plot_results`) do not change the
state and `interactive_loop` is a composition of these. -/
inductive Op where
  | step (newPts : List (List ℚ)) (meanObj : ℚ)
  | solveAll (simMax : ℕ) (newPts : List (List ℚ))
  | addAcq
  | initAcqs (n : ℕ)

/-- Apply one non-reset operation to the state. -/
def applyOp (s : ParMOOSim) : Op → ParMOOSim
  | Op.step newPts meanObj => (optimize_step s newPts meanObj).1
  | Op.solveAll simMax newPts => solve_all s simMax newPts
  | Op.addAcq => add_acquisition s
  | Op.initAcqs n => initial_acquisitions s n

/-- Pareto dominance over the recorded objective vectors, all
objectives minimized, as the spec describes the search library applying
it (spec sections 4.4 and 8; the library itself is external to the
repository): `p` dominates `q` when it is at least as good everywhere
and strictly better somewhere.  The repository feeds this comparison
the values produced by `obj_func`, i.e. the raw extracted outputs. -/
def dominatesB (p q : List ℚ) : Bool :=
  p.length == q.length &&
  (p.zip q).all (fun pr => decide (pr.1 ≤ pr.2)) &&
  (p.zip q).any (fun pr => decide (pr.1 < pr.2))

/-- A concrete engine instance: two objectives, one design variable,
auto-switch on with epsilon 1/2, batch size 5. -/
def sampleInit : ParMOOSim :=
  ParMOOSim.init ["LCOE", "-NPV"] 0 [("Row_Distance", ((10, 20), "continuous"))]
    10 5 5 true (1/2)

/-- `sampleInit` after one sequential step has recorded the mean
objective value 10. -/
def sampleSeq : ParMOOSim :=
  { sampleInit with num_steps := 1, prev_objectives := [10] }

/-- `sampleSeq` with epsilon 0 instead of 1/2. -/
def sampleSeqEps0 : ParMOOSim :=
  { sampleSeq with epsilon := 0 }

/-- `sampleInit` with the batch latch set. -/
def sampleBatch : ParMOOSim :=
  { sampleInit with switched_to_batch := true }

/-! ## Helper lemmas -/

/-- The routing loop ignores a design-point entry whose name has no
routing-table entry: the resulting configuration state is the one
obtained from the remaining entries, and the name is warned about. -/
theorem routeVariables_skip (x1 : List (String × ℚ)) (st : SimState)
    (x2 : List (String × ℚ)) (k : String) (v : ℚ)
    (h : variable_to_group.find? (fun p => p.1 == k) = none) :
    (routeVariables st (x1 ++ (k, v) :: x2)).1 = (routeVariables st (x1 ++ x2)).1 ∧
    k ∈ (routeVariables st (x1 ++ (k, v) :: x2)).2 := by
  induction x1 generalizing st with
  | nil =>
    refine ⟨?_, ?_⟩ <;> simp [routeVariables, h]
  | cons a rest ih =>
    obtain ⟨name, val⟩ := a
    simp only [List.cons_append, routeVariables]
    cases hf : variable_to_group.find? (fun p => p.1 == name) with
    | some g => exact ih (setGroupAttr st g.2 name val)
    | none =>
      obtain ⟨h1, h2⟩ := ih st
      exact ⟨h1, List.mem_cons_of_mem _ h2⟩

/-- Every non-reset operation keeps the batch latch set. -/
theorem applyOp_keeps_latch (s : ParMOOSim) (op : Op)
    (h : s.switched_to_batch = true) :
    (applyOp s op).switched_to_batch = true := by
  cases op with
  | step newPts meanObj => simp [applyOp, optimize_step, h]
  | solveAll simMax newPts => exact h
  | addAcq => exact h
  | initAcqs n => exact h

/-- Any sequence of non-reset operations keeps the batch latch set. -/
theorem foldl_keeps_latch (ops : List Op) (s : ParMOOSim)
    (h : s.switched_to_batch = true) :
    (ops.foldl applyOp s).switched_to_batch = true := by
  induction ops generalizing s with
  | nil => exact h
  | cons op rest ih => exact ih (applyOp s op) (applyOp_keeps_latch s op h)

/-! ## Claims -/

/-- Claim C1: the spec says `sim_func` always returns a vector whose
length equals the number of selected outputs, a failed extraction
contributing a NaN entry.  The code violates this: with selected
outputs `["LCOE", "Payback"]` and a simulator run that populated
`lcoe_real` but no `payback` field, `_collect_outputs` merely prints a
warning for the missing output and appends nothing, so `sim_func`
returns a one-entry vector for two registered objectives. -/
theorem sim_func_shortens_on_missing_output :
    sim_func ⟨["LCOE", "Payback"], ⟨[], [], []⟩⟩
        (fun _ => Except.ok [[("lcoe_real", SimVal.num 5)]]) []
      = [SimVal.num 5] ∧
    (["LCOE", "Payback"] : List String).length = 2 :=
  ⟨rfl, rfl⟩

/-- Claim C5: if any step of configuring, executing or extracting
raises inside `sim_func`, the exception is contained and the result is
a vector of NaN sentinels whose length is the number of selected
outputs. -/
theorem sim_func_nan_on_failure (cfg : ConfigSelection)
    (execute : SimState → Except PyErr (List SimModule))
    (x : List (String × ℚ)) (e : PyErr)
    (h : execute (routeVariables cfg.state x).1 = Except.error e) :
    sim_func cfg execute x = List.replicate cfg.selected_outputs.length SimVal.nan ∧
    (sim_func cfg execute x).length = cfg.selected_outputs.length ∧
    ∀ v ∈ sim_func cfg execute x, v = SimVal.nan := by
  have hres : sim_func cfg execute x
      = List.replicate cfg.selected_outputs.length SimVal.nan := by
    unfold sim_func
    rw [h]
  refine ⟨hres, ?_, ?_⟩
  · rw [hres, List.length_replicate]
  · intro v hv
    rw [hres] at hv
    exact (List.eq_of_mem_replicate hv)

/-- Witness for C5 at a concrete input: two selected outputs, a
simulator execution that raises, result `[nan, nan]`. -/
theorem sim_func_nan_on_failure_witness :
    sim_func ⟨["LCOE", "-NPV"], ⟨[], [], []⟩⟩
        (fun _ => Except.error (PyErr.other "simulation crashed")) []
      = [SimVal.nan, SimVal.nan] := by
  have h := sim_func_nan_on_failure ⟨["LCOE", "-NPV"], ⟨[], [], []⟩⟩
    (fun _ => Except.error (PyErr.other "simulation crashed")) []
    (PyErr.other "simulation crashed") rfl
  exact h.1.trans rfl

/-- Claim C9: a design-point entry whose variable name has no entry in
the routing table is warned about and skipped, every other entry is
still routed, and the evaluation still proceeds to execute the
simulator modules (the result is exactly that of evaluating the design
point without the unmapped entry). -/
theorem unmapped_variable_skipped (cfg : ConfigSelection)
    (execute : SimState → Except PyErr (List SimModule))
    (x1 x2 : List (String × ℚ)) (k : String) (v : ℚ)
    (h : variable_to_group.find? (fun p => p.1 == k) = none) :
    (routeVariables cfg.state (x1 ++ (k, v) :: x2)).1
      = (routeVariables cfg.state (x1 ++ x2)).1 ∧
    k ∈ (routeVariables cfg.state (x1 ++ (k, v) :: x2)).2 ∧
    sim_func cfg execute (x1 ++ (k, v) :: x2) = sim_func cfg execute (x1 ++ x2) := by
  obtain ⟨h1, h2⟩ := routeVariables_skip x1 cfg.state x2 k v h
  refine ⟨h1, h2, ?_⟩
  unfold sim_func
  rw [h1]

/-- Witness for C9 at a concrete input: `tshours` is routed to the TES
group, the unknown name `mystery_var` is warned about and skipped, and
the evaluation still reaches the (successful) execution. -/
theorem unmapped_variable_skipped_witness :
    (routeVariables (SimState.mk [] [] []) [("tshours", 6), ("mystery_var", 1)]).1
      = (routeVariables (SimState.mk [] [] []) [("tshours", 6)]).1 ∧
    "mystery_var" ∈ (routeVariables (SimState.mk [] [] [])
      [("tshours", 6), ("mystery_var", 1)]).2 ∧
    sim_func ⟨["LCOE"], ⟨[], [], []⟩⟩
        (fun st => Except.ok [[("lcoe_real", SimVal.num st.tes.length)]])
        [("tshours", 6), ("mystery_var", 1)]
      = [SimVal.num 1] := by
  have h := unmapped_variable_skipped ⟨["LCOE"], ⟨[], [], []⟩⟩
    (fun st => Except.ok [[("lcoe_real", SimVal.num st.tes.length)]])
    [("tshours", 6)] [] "mystery_var" 1 rfl
  exact ⟨h.1, h.2.1, h.2.2.trans rfl⟩

/-- Claim C6: requesting `"-NPV"` does extract the simulator's internal
`npv` field, but the code never applies the sign flip: `obj_func` hands
the raw extracted value to the minimizing search library, so under the
dominance the library applies, the point with the SMALLER npv (100)
dominates the one with the larger npv (200) — the opposite of the
claimed maximize direction. -/
theorem npv_extracted_raw_without_sign_flip :
    outputNameGet "-NPV" = "npv" ∧
    collect_outputs [[("npv", SimVal.num 100)]] ["-NPV"] = [SimVal.num 100] ∧
    collect_outputs [[("npv", SimVal.num 200)]] ["-NPV"] = [SimVal.num 200] ∧
    obj_func 0 [100] = 100 ∧
    dominatesB [100] [200] = true ∧
    dominatesB [200] [100] = false :=
  ⟨rfl, rfl, rfl, rfl, by decide, by decide⟩

/-- Claim C7: the spec says `set_debug_outputs` appends the new names
while preserving the relative order of the previously registered ones.
The code computes `list(set(old + new))`, whose iteration order is
hash-seed dependent: the enumeration `["CF", "Payback", "LCOE"]` is an
admissible result for old `["LCOE", "Payback"]` and new `["CF"]`, and
it does not contain the old names in their original relative order. -/
theorem set_debug_outputs_order_not_preserved :
    SetDebugOutputsResult ["LCOE", "Payback"] ["CF"] ["CF", "Payback", "LCOE"] ∧
    ¬ List.Sublist ["LCOE", "Payback"] ["CF", "Payback", "LCOE"] := by
  refine ⟨⟨by decide, ?_⟩, by decide⟩
  intro a
  constructor <;> intro ha <;>
    simp only [List.mem_append, List.mem_cons, List.not_mem_nil, or_false] at * <;>
    tauto

/-- Claim C2: once the batch latch is set, every `optimize_step` call
is a rejected no-op leaving the whole state (step counter, history,
mode, archive, acquisitions) unchanged; no sequence of non-reset
operations ever clears the latch; in particular any number of
consecutive `optimize_step` calls leaves the state unchanged. -/
theorem batch_mode_one_way_latch (s : ParMOOSim)
    (h : s.switched_to_batch = true) :
    (∀ newPts meanObj, optimize_step s newPts meanObj = (s, Except.ok ())) ∧
    (∀ ops : List Op, (ops.foldl applyOp s).switched_to_batch = true) ∧
    (∀ steps : List (List (List ℚ) × ℚ),
        steps.foldl (fun t pm => (optimize_step t pm.1 pm.2).1) s = s) := by
  have hstep : ∀ newPts meanObj, optimize_step s newPts meanObj = (s, Except.ok ()) := by
    intro newPts meanObj
    simp [optimize_step, h]
  refine ⟨hstep, fun ops => foldl_keeps_latch ops s h, ?_⟩
  intro steps
  induction steps with
  | nil => rfl
  | cons pm rest ih =>
    simpa [hstep pm.1 pm.2] using ih

/-- Witness for C2: from a concrete latched state, 100 consecutive
`optimize_step` calls leave the state unchanged. -/
theorem batch_mode_one_way_latch_witness :
    (List.replicate 100 (([] : List (List ℚ)), (0 : ℚ))).foldl
        (fun t pm => (optimize_step t pm.1 pm.2).1) sampleBatch = sampleBatch ∧
    sampleBatch.switched_to_batch = true :=
  ⟨(batch_mode_one_way_latch sampleBatch rfl).2.2 _, rfl⟩

/-- Claim C3: from a sequential state, the SEQUENTIAL-to-BATCH
transition fires on an `optimize_step` call if and only if auto-switch
is on, the history (with the value just recorded by this call) has at
least two entries, and the absolute difference of its two most recent
entries is strictly below epsilon. -/
theorem switch_trigger_iff (s : ParMOOSim) (newPts : List (List ℚ)) (meanObj : ℚ)
    (h : s.switched_to_batch = false) :
    (optimize_step s newPts meanObj).1.switched_to_batch = true ↔
      (s.auto_switch = true ∧
       2 ≤ (s.prev_objectives ++ [meanObj]).length ∧
       lastTwoDelta (s.prev_objectives ++ [meanObj]) < s.epsilon) := by
  simp only [optimize_step, h, Bool.false_eq_true, if_false, Bool.not_false,
    Bool.and_true, Bool.true_and]
  by_cases hlen : 2 ≤ (s.prev_objectives ++ [meanObj]).length
  · simp only [hlen, if_true, iff_true_intro hlen, true_and]
    by_cases ha : s.auto_switch
    · by_cases hd : lastTwoDelta (s.prev_objectives ++ [meanObj]) < s.epsilon
      · simp [ha, hd]
      · simp [ha, hd]
    · simp [Bool.not_eq_true] at ha
      simp [ha]
  · have hlen' : ¬ 1 ≤ s.prev_objectives.length := by
      simpa using hlen
    simp [hlen, hlen', h]

/-- Witness for C3 at the claim's concrete inputs: with recorded
history `[10, 10]` the transition fires for epsilon `1/2` and does not
fire for epsilon `0`. -/
theorem switch_trigger_iff_witness :
    (optimize_step sampleSeq [] 10).1.switched_to_batch = true ∧
    ¬ (optimize_step sampleSeqEps0 [] 10).1.switched_to_batch = true := by
  constructor
  · refine (switch_trigger_iff sampleSeq [] 10 rfl).mpr ⟨rfl, by decide, ?_⟩
    show lastTwoDelta ([10] ++ [10]) < (1/2 : ℚ)
    norm_num [lastTwoDelta]
  · intro hb
    have h3 := (switch_trigger_iff sampleSeqEps0 [] 10 rfl).mp hb
    refine absurd h3.2.2 ?_
    show ¬ lastTwoDelta ([10] ++ [10]) < (0 : ℚ)
    norm_num [lastTwoDelta]

/-- Claim C4: the spec says the transition adds `batch_size`
acquisitions and then completes a full batch solve without error.
The code does add exactly `batch_size` acquisitions and sets the latch,
but the following call `self.solve_all(plot_output=plot_output)` omits
the required positional argument `sim_max` of
`solve_all(self, sim_max, plot_output=None)`, so the transition raises
a `TypeError` instead of performing the batch solve. -/
theorem switch_raises_type_error_before_batch_solve :
    (optimize_step sampleSeq [] 10).2 =
      Except.error (PyErr.typeError
        "solve_all missing 1 required positional argument: sim_max") ∧
    (optimize_step sampleSeq [] 10).1.my_moop.acquisitions =
      sampleSeq.my_moop.acquisitions + sampleSeq.batch_size ∧
    (optimize_step sampleSeq [] 10).1.switched_to_batch = true := by
  refine ⟨?_, ?_, ?_⟩ <;>
    norm_num [optimize_step, sampleSeq, sampleInit, ParMOOSim.init,
      initial_acquisitions, buildMoop, lastTwoDelta]

/-- Claim C8: `reset` clears all search progress (step counter,
history, latch, archive), rebuilds the `MOOP` registration exactly as
construction does from the stored problem definition — same designs,
same objectives, same simulation parameters, same seed 0 — leaves every
configuration field unchanged, and is idempotent. -/
theorem reset_clears_progress_preserves_problem (s : ParMOOSim) :
    (reset s).num_steps = 0 ∧
    (reset s).prev_objectives = [] ∧
    (reset s).switched_to_batch = false ∧
    (reset s).my_moop.archive = [] ∧
    (reset s).my_moop.np_random_gen = 0 ∧
    (reset s).my_moop =
      (ParMOOSim.init s.objective_names s.simFuncToken s.desVarDict s.search_budget
        s.switch_after s.batch_size s.auto_switch s.epsilon).my_moop ∧
    (reset s).desVarDict = s.desVarDict ∧
    (reset s).objective_names = s.objective_names ∧
    (reset s).search_budget = s.search_budget ∧
    (reset s).simFuncToken = s.simFuncToken ∧
    (reset s).my_moop.designs =
      s.desVarDict.map (fun kv => (kv.1, ⟨kv.2.1.1, kv.2.1.2, kv.2.2⟩)) ∧
    (reset s).my_moop.objectives = s.objective_names ∧
    (reset s).my_moop.simM = s.objective_names.length ∧
    (reset s).my_moop.simSearchBudget = s.search_budget ∧
    (reset s).my_moop.simFuncToken = s.simFuncToken ∧
    (reset s).epsilon = s.epsilon ∧
    (reset s).auto_switch = s.auto_switch ∧
    (reset s).batch_size = s.batch_size ∧
    (reset s).switch_after = s.switch_after ∧
    reset (reset s) = reset s := by
  repeat' constructor

/-- Claim C10: the invariant `num_steps = length prev_objectives` is
established at construction, preserved by `optimize_step` in both the
rejected and the accepted case (the accepted case increments the
counter by one and appends exactly one history value, even when the
step ends in the auto-switch `TypeError`), and restored by `reset`. -/
theorem step_count_matches_history (s : ParMOOSim)
    (newPts : List (List ℚ)) (meanObj : ℚ)
    (h : s.num_steps = s.prev_objectives.length) :
    (optimize_step s newPts meanObj).1.num_steps =
      (optimize_step s newPts meanObj).1.prev_objectives.length ∧
    (s.switched_to_batch = true → (optimize_step s newPts meanObj).1 = s) ∧
    (s.switched_to_batch = false →
       (optimize_step s newPts meanObj).1.num_steps = s.num_steps + 1 ∧
       (optimize_step s newPts meanObj).1.prev_objectives
         = s.prev_objectives ++ [meanObj]) ∧
    (reset s).num_steps = (reset s).prev_objectives.length ∧
    (∀ so tok d sb sa bs asw eps,
       (ParMOOSim.init so tok d sb sa bs asw eps).num_steps = 0 ∧
       (ParMOOSim.init so tok d sb sa bs asw eps).prev_objectives = []) := by
  refine ⟨?_, ?_, ?_, rfl, fun so tok d sb sa bs asw eps => ⟨rfl, rfl⟩⟩
  · cases hb : s.switched_to_batch with
    | true => simpa [optimize_step, hb] using h
    | false =>
      simp only [optimize_step, hb, Bool.false_eq_true, if_false]
      split
      · split
        · simp [h]
        · simp [h]
      · simp [h]
  · intro hb
    simp [optimize_step, hb]
  · intro hb
    simp only [optimize_step, hb, Bool.false_eq_true, if_false]
    split
    · split
      · exact ⟨rfl, rfl⟩
      · exact ⟨rfl, rfl⟩
    · exact ⟨rfl, rfl⟩

/-- Witness for C10 at a concrete state: the invariant holds after one
accepted step from a freshly constructed instance. -/
theorem step_count_matches_history_witness :
    (optimize_step sampleInit [[12]] 7).1.num_steps =
      (optimize_step sampleInit [[12]] 7).1.prev_objectives.length ∧
    (optimize_step sampleInit [[12]] 7).1.num_steps = sampleInit.num_steps + 1 :=
  ⟨(step_count_matches_history sampleInit [[12]] 7 rfl).1,
   ((step_count_matches_history sampleInit [[12]] 7 rfl).2.2.1 rfl).1⟩

end Sammoo
